import Mathlib

/-!
Verification of the paged Guide component
(`src/packages/components/src/guide/index.js`).

The Guide component keeps one piece of state, `currentPage`, a page index
initialised to 0 by `useState( 0 )`.  From it and the number of children it
derives `canGoBack` and `canGoForward`, guards the `goBack` / `goForward`
handlers with them, and renders a modal view containing the current child,
navigation buttons and finish buttons.  We embed the state transitions as
functions on `Nat` (every value that arises in the component is a
non-negative integer) and the render path as a function producing an
`Option GuideView`, `none` embedding the `return null` taken when the
component has no pages.
-/

namespace Guide

/-- Embeds `const numberOfPages = Children.count( children );` -- the number
of child pages passed to the component. -/
def numberOfPages {α : Type} (children : List α) : Nat :=
  children.length

/-- Embeds `const canGoBack = currentPage > 0;`. -/
def canGoBack (currentPage : Nat) : Bool :=
  decide (currentPage > 0)

/-- Embeds `const canGoForward = currentPage < numberOfPages - 1;`.  With
`Nat` truncated subtraction `numberOfPages - 1` agrees with the JavaScript
value for `numberOfPages ≥ 1`; for `numberOfPages = 0` both give a
comparison that is false for every non-negative `currentPage`. -/
def canGoForward (currentPage numPages : Nat) : Bool :=
  decide (currentPage < numPages - 1)

/-- Embeds the `goBack` handler:
`if ( canGoBack ) { setCurrentPage( currentPage - 1 ); }`. -/
def goBack (numPages currentPage : Nat) : Nat :=
  if canGoBack currentPage then currentPage - 1 else currentPage

/-- Embeds the `goForward` handler:
`if ( canGoForward ) { setCurrentPage( currentPage + 1 ); }`. -/
def goForward (numPages currentPage : Nat) : Nat :=
  if canGoForward currentPage numPages then currentPage + 1 else currentPage

/-- Embeds the React state setter `setCurrentPage` produced by
`useState( 0 )`: it replaces the stored page index with its argument,
unconditionally. -/
def setCurrentPage (j : Nat) (currentPage : Nat) : Nat :=
  j

/-- Embeds the `jumpTo` operation as wired in the source: the Guide passes
the raw `setCurrentPage` setter to `PageControl`
(`setCurrentPage={ setCurrentPage }`), so a jump request with argument `j`
replaces the index with `j` with no range guard. -/
def jumpTo (numPages j currentPage : Nat) : Nat :=
  setCurrentPage j currentPage

/-- Embeds `finishButtonText || __( 'Finish' )`: the string rendered inside
a finish button.  In JavaScript an absent (`undefined`) or empty string
prop is falsy, so the localized default label is used; any non-empty
supplied text is truthy and shown as is.  The localized `__( 'Finish' )` is
embedded as the plain string it localizes. -/
def finishLabel (finishButtonText : Option String) : String :=
  match finishButtonText with
  | none => "Finish"
  | some s => if s = "" then "Finish" else s

/-- The callbacks the rendered view wires onto its interactive parts, each
named after the source handler it embeds.  `setCurrentPageH j` stands for
the closure `PageControl` builds around the raw setter for marker `j`. -/
inductive Handler : Type
  | goBackH : Handler
  | goForwardH : Handler
  | onFinishH : Handler
  | setCurrentPageH : Nat → Handler
deriving DecidableEq, Repr

/-- Runs one handler activation on the component state.  The result is the
new `currentPage` together with the number of times the caller-supplied
`onFinish` callback was invoked during the activation: `goBack` and
`goForward` only touch the index, while a finish control's
`onClick={ onFinish }` invokes the external callback once and never calls
`setCurrentPage`. -/
def runHandler (numPages : Nat) (h : Handler) (currentPage : Nat) :
    Nat × Nat :=
  match h with
  | .goBackH => (goBack numPages currentPage, 0)
  | .goForwardH => (goForward numPages currentPage, 0)
  | .onFinishH => (currentPage, 1)
  | .setCurrentPageH j => (setCurrentPage j currentPage, 0)

/-- The shape of the view returned by the component when it has at least
one page, field by field in source order: the modal's dismiss callback, the
keyboard shortcuts, the displayed child `children[ currentPage ]`, the
conditionally rendered inline finish button (label and callback), the
conditionally rendered back button, the page control's props, the
conditionally rendered forward button, and the conditionally rendered
footer finish button. -/
structure GuideView (α : Type) where
  modalOnRequestClose : Handler
  shortcutLeft : Handler
  shortcutRight : Handler
  content : Option α
  inlineFinishButton : Option (String × Handler)
  backButton : Option Handler
  pageControl : Nat × Nat
  forwardButton : Option Handler
  footerFinishButton : Option (String × Handler)
deriving DecidableEq, Repr

/-- Embeds the body of `Guide`: `if ( numberOfPages === 0 ) { return null; }`
becomes `none`, and otherwise the returned markup becomes a `GuideView`
with each conditionally rendered part (`canGoBack && ...`,
`canGoForward && ...`, `! canGoForward && ...`) embedded as an `Option`. -/
def render {α : Type} (children : List α) (finishButtonText : Option String)
    (currentPage : Nat) : Option (GuideView α) :=
  let numPages := numberOfPages children
  if numPages = 0 then
    none
  else
    some
      { modalOnRequestClose := Handler.onFinishH
        shortcutLeft := Handler.goBackH
        shortcutRight := Handler.goForwardH
        content := children.get? currentPage
        inlineFinishButton :=
          if !canGoForward currentPage numPages then
            some (finishLabel finishButtonText, Handler.onFinishH)
          else none
        backButton :=
          if canGoBack currentPage then some Handler.goBackH else none
        pageControl := (currentPage, numPages)
        forwardButton :=
          if canGoForward currentPage numPages then
            some Handler.goForwardH
          else none
        footerFinishButton :=
          if !canGoForward currentPage numPages then
            some (finishLabel finishButtonText, Handler.onFinishH)
          else none }

/-- A navigation action: a click on the back or forward button (or the
matching `left` / `right` keyboard shortcut, which is bound to the same
handler). -/
inductive NavAction : Type
  | back : NavAction
  | forward : NavAction
deriving DecidableEq, Repr

/-- Applies one navigation action to the page index. -/
def navStep (numPages : Nat) (i : Nat) : NavAction → Nat
  | .back => goBack numPages i
  | .forward => goForward numPages i

/-- Applies a sequence of navigation actions, left to right. -/
def runNav (numPages : Nat) (i : Nat) (acts : List NavAction) : Nat :=
  acts.foldl (navStep numPages) i

lemma navStep_le (numPages : Nat) (i : Nat) (a : NavAction)
    (h : i ≤ numPages - 1) : navStep numPages i a ≤ numPages - 1 := by
  cases a with
  | back =>
      simp only [navStep, goBack, canGoBack]
      split <;> omega
  | forward =>
      simp only [navStep, goForward, canGoForward]
      split <;> rename_i hc <;> simp at hc <;> omega

lemma runNav_le (numPages : Nat) (acts : List NavAction) :
    ∀ i, i ≤ numPages - 1 → runNav numPages i acts ≤ numPages - 1 := by
  induction acts with
  | nil => intro i h; simpa [runNav] using h
  | cons a rest ih =>
      intro i h
      simpa [runNav, List.foldl_cons] using
        ih (navStep numPages i a) (navStep_le numPages i a h)

end Guide

namespace Guide

/-- Renders to an explicit view whenever at least one page is present;
every conditionally rendered part is spelled out field by field. -/
lemma render_of_ne_zero {α : Type} (children : List α) (ft : Option String)
    (i : Nat) (h : children.length ≠ 0) :
    render children ft i = some
      { modalOnRequestClose := Handler.onFinishH
        shortcutLeft := Handler.goBackH
        shortcutRight := Handler.goForwardH
        content := children.get? i
        inlineFinishButton :=
          if !canGoForward i children.length then
            some (finishLabel ft, Handler.onFinishH)
          else none
        backButton := if canGoBack i then some Handler.goBackH else none
        pageControl := (i, children.length)
        forwardButton :=
          if canGoForward i children.length then some Handler.goForwardH
          else none
        footerFinishButton :=
          if !canGoForward i children.length then
            some (finishLabel ft, Handler.onFinishH)
          else none } := by
  simp [render, numberOfPages, h]

end Guide

/-- C1: for every number of pages N > 0 and every sequence of goBack /
goForward actions applied from the initial state (index 0), the current
index stays within [0, N − 1] after each action (every intermediate state
is the result of running some prefix of the sequence). -/
theorem c1_nav_stays_in_range (N : Nat) (hN : 0 < N)
    (acts : List Guide.NavAction) :
    0 ≤ Guide.runNav N 0 acts ∧ Guide.runNav N 0 acts ≤ N - 1 :=
  ⟨Nat.zero_le _, Guide.runNav_le N acts 0 (Nat.zero_le _)⟩

theorem c1_nav_stays_in_range_witness :
    0 ≤ Guide.runNav 3 0
        [Guide.NavAction.forward, Guide.NavAction.forward,
         Guide.NavAction.forward, Guide.NavAction.back] ∧
    Guide.runNav 3 0
        [Guide.NavAction.forward, Guide.NavAction.forward,
         Guide.NavAction.forward, Guide.NavAction.back] ≤ 3 - 1 :=
  c1_nav_stays_in_range 3 (by decide)
    [Guide.NavAction.forward, Guide.NavAction.forward,
     Guide.NavAction.forward, Guide.NavAction.back]

/-- C2 counterexample: with 3 pages and current index 2, a jump request to
index 5 (outside [0, 2]) is not a no-op: it sets the index to 5, because
the Guide hands `PageControl` the raw state setter with no range guard. -/
theorem c2_counterexample :
    ¬(5 ≤ 3 - 1) ∧ Guide.jumpTo 3 5 2 = 5 ∧ Guide.jumpTo 3 5 2 ≠ 2 := by
  decide

/-- C2 (amended): jumpTo(j) sets CurrentIndex to j unconditionally -- in
particular to j when 0 ≤ j ≤ N − 1, but a request with j outside
[0, N − 1] is not a no-op: it also sets CurrentIndex to j. -/
theorem c2_jumpTo_unguarded (N j i : Nat) : Guide.jumpTo N j i = j := rfl

/-- C3: goBack at index 0 and goForward at index N − 1 are silently
ignored -- the index is unchanged and no error is raised (both handlers
are total functions). -/
theorem c3_noop_at_bounds (N : Nat) :
    Guide.goBack N 0 = 0 ∧ Guide.goForward N (N - 1) = N - 1 := by
  refine ⟨?_, ?_⟩
  · simp [Guide.goBack, Guide.canGoBack]
  · simp [Guide.goForward, Guide.canGoForward]

/-- C4: for N > 0 and an index i in [0, N − 1], canGoBack holds exactly
when i > 0 (equivalently, fails exactly at i = 0) and canGoForward holds
exactly when i < N − 1 (equivalently, fails exactly at i = N − 1). -/
theorem c4_availability (N i : Nat) (hN : 0 < N) (hi : i ≤ N - 1) :
    (Guide.canGoBack i = true ↔ 0 < i) ∧
    (Guide.canGoBack i = false ↔ i = 0) ∧
    (Guide.canGoForward i N = true ↔ i < N - 1) ∧
    (Guide.canGoForward i N = false ↔ i = N - 1) := by
  refine ⟨?_, ?_, ?_, ?_⟩ <;>
    simp only [Guide.canGoBack, Guide.canGoForward, decide_eq_true_eq,
      decide_eq_false_iff_not, gt_iff_lt] <;>
    omega

theorem c4_availability_witness :
    (Guide.canGoBack 1 = true ↔ 0 < 1) ∧
    (Guide.canGoBack 1 = false ↔ 1 = 0) ∧
    (Guide.canGoForward 1 2 = true ↔ 1 < 2 - 1) ∧
    (Guide.canGoForward 1 2 = false ↔ 1 = 2 - 1) :=
  c4_availability 2 1 (by decide) (by decide)

/-- C5: with an empty page set the render function returns nothing at all
(no page content, no controls) and raises no error (it is total). -/
theorem c5_empty_renders_nothing (α : Type) (ft : Option String) (i : Nat) :
    Guide.render ([] : List α) ft i = none := rfl

/-- C6: when the goForward precondition holds at i (so that i + 1 is still
a valid index and the subsequent goBack precondition holds as well),
goForward followed immediately by goBack restores the prior index. -/
theorem c6_forward_back_inverse (N i : Nat)
    (h : 0 < i + 1 ∧ i + 1 ≤ N - 1) :
    Guide.goBack N (Guide.goForward N i) = i := by
  obtain ⟨-, h2⟩ := h
  have hf : Guide.goForward N i = i + 1 := by
    simp only [Guide.goForward, Guide.canGoForward]
    rw [if_pos]
    simp only [decide_eq_true_eq]
    omega
  rw [hf]
  simp [Guide.goBack, Guide.canGoBack]

theorem c6_forward_back_inverse_witness :
    Guide.goBack 3 (Guide.goForward 3 0) = 0 :=
  c6_forward_back_inverse 3 0 ⟨by decide, by decide⟩

/-- C7: the finish action is available in every state OnPage(i) -- the
modal's dismiss request is wired to the caller's `onFinish` in every
rendered view -- and activating it invokes the `onFinish` callback exactly
once while leaving the current page index unchanged. -/
theorem c7_finish_frame (α : Type) (children : List α) (ft : Option String)
    (i : Nat) (h : 0 < children.length) :
    ∃ v : Guide.GuideView α, Guide.render children ft i = some v ∧
      v.modalOnRequestClose = Guide.Handler.onFinishH ∧
      Guide.runHandler children.length Guide.Handler.onFinishH i = (i, 1) := by
  refine ⟨_, Guide.render_of_ne_zero children ft i (by omega), rfl, rfl⟩

theorem c7_finish_frame_witness :
    ∃ v : Guide.GuideView Unit, Guide.render [()] none 2 = some v ∧
      v.modalOnRequestClose = Guide.Handler.onFinishH ∧
      Guide.runHandler (List.length [()]) Guide.Handler.onFinishH 2 = (2, 1) :=
  c7_finish_frame Unit [()] none 2 (by decide)

/-- C8: whenever at least one page is present the rendered view contains
the back control exactly when canGoBack holds, the forward control exactly
when canGoForward holds, and each finish control (inline and footer)
exactly when canGoForward does not hold; with one page all of canGoBack
and canGoForward fail, so both navigation controls are absent and the
finish controls are present immediately. -/
theorem c8_controls (α : Type) (children : List α) (ft : Option String)
    (i : Nat) (h : 0 < children.length) :
    ∃ v : Guide.GuideView α, Guide.render children ft i = some v ∧
      v.backButton.isSome = Guide.canGoBack i ∧
      v.forwardButton.isSome = Guide.canGoForward i children.length ∧
      v.inlineFinishButton.isSome = !Guide.canGoForward i children.length ∧
      v.footerFinishButton.isSome = !Guide.canGoForward i children.length := by
  refine ⟨_, Guide.render_of_ne_zero children ft i (by omega), ?_, ?_, ?_, ?_⟩ <;>
    dsimp only <;> split <;> simp_all

theorem c8_controls_witness :
    ∃ v : Guide.GuideView Unit, Guide.render [()] none 0 = some v ∧
      v.backButton.isSome = Guide.canGoBack 0 ∧
      v.forwardButton.isSome = Guide.canGoForward 0 (List.length [()]) ∧
      v.inlineFinishButton.isSome = !Guide.canGoForward 0 (List.length [()]) ∧
      v.footerFinishButton.isSome = !Guide.canGoForward 0 (List.length [()]) :=
  c8_controls Unit [()] none 0 (by decide)

/-- C9 counterexample: with two pages at index 0 -- a non-last page, where
forward navigation is available -- the rendered view exists but contains no
inline finish button at all. -/
theorem c9_counterexample :
    Guide.canGoForward 0 2 = true ∧
    (Guide.render ([0, 1] : List Nat) none 0).isSome = true ∧
    (Guide.render ([0, 1] : List Nat) none 0).bind
      Guide.GuideView.inlineFinishButton = none := by
  refine ⟨rfl, rfl, rfl⟩

/-- C9 (amended): the inline finish control is rendered only on the last
page (exactly when canGoForward does not hold), under the same condition
as the footer finish control, so no finish affordance is visible on
non-last pages. -/
theorem c9_inline_finish_on_last_page_only (α : Type) (children : List α)
    (ft : Option String) (i : Nat) (h : 0 < children.length) :
    ∃ v : Guide.GuideView α, Guide.render children ft i = some v ∧
      v.inlineFinishButton.isSome = !Guide.canGoForward i children.length ∧
      v.inlineFinishButton = v.footerFinishButton := by
  refine ⟨_, Guide.render_of_ne_zero children ft i (by omega), ?_, ?_⟩ <;>
    dsimp only <;> split <;> simp_all

theorem c9_inline_finish_on_last_page_only_witness :
    ∃ v : Guide.GuideView Unit, Guide.render [()] none 0 = some v ∧
      v.inlineFinishButton.isSome = !Guide.canGoForward 0 (List.length [()]) ∧
      v.inlineFinishButton = v.footerFinishButton :=
  c9_inline_finish_on_last_page_only Unit [()] none 0 (by decide)

namespace Guide

/-- Every finish button the view contains (inline or footer) carries the
label computed by `finishLabel` from the `finishButtonText` prop. -/
lemma finish_button_label {α : Type} (children : List α)
    (ft : Option String) (i : Nat) (v : GuideView α)
    (p : String × Handler) (hv : render children ft i = some v)
    (hp : v.inlineFinishButton = some p ∨ v.footerFinishButton = some p) :
    p.1 = finishLabel ft := by
  by_cases h0 : children.length = 0
  · rw [show children = [] from List.length_eq_zero.mp h0] at hv
    exact absurd hv (by simp [render, numberOfPages])
  · rw [render_of_ne_zero children ft i h0] at hv
    injection hv with hv
    subst hv
    rcases hp with hp | hp <;> dsimp only at hp <;> split at hp
    all_goals
      first
        | exact Option.noConfusion hp
        | (injection hp with hp; exact hp ▸ rfl)
end Guide

/-- C10: when the caller supplies an empty (falsy) `finishButtonText`,
every rendered finish control displays the localized default label
"Finish"; when the supplied text is non-empty (truthy) every rendered
finish control displays that text. -/
theorem c10_finish_label_default :
    (∀ (children : List Unit) (i : Nat) (v : Guide.GuideView Unit)
        (p : String × Guide.Handler),
        Guide.render children (some "") i = some v →
        v.inlineFinishButton = some p ∨ v.footerFinishButton = some p →
        p.1 = "Finish") ∧
    (∀ (children : List Unit) (s : String) (i : Nat)
        (v : Guide.GuideView Unit) (p : String × Guide.Handler),
        s ≠ "" →
        Guide.render children (some s) i = some v →
        v.inlineFinishButton = some p ∨ v.footerFinishButton = some p →
        p.1 = s) := by
  constructor
  · intro children i v p hv hp
    exact Guide.finish_button_label children (some "") i v p hv hp
  · intro children s i v p hs hv hp
    rw [Guide.finish_button_label children (some s) i v p hv hp]
    simp [Guide.finishLabel, hs]

theorem c10_finish_label_default_witness :
    ((("Finish" : String), Guide.Handler.onFinishH).1 = "Finish") ∧
    ((("Done" : String), Guide.Handler.onFinishH).1 = "Done") :=
  ⟨c10_finish_label_default.1 [()] 0 _ ("Finish", Guide.Handler.onFinishH)
      rfl (Or.inl rfl),
   c10_finish_label_default.2 [()] "Done" 0 _
      ("Done", Guide.Handler.onFinishH) (by decide) rfl (Or.inl rfl)⟩
